import Mathlib

/-!
Verification development for the madmin health/inspect client module
(health-old.go of madmin-go).

The inspect response protocol, the request construction, and the
health-report data model with its derived accessors are embedded as
executable Lean definitions, translated statement by statement from the
Go source.  Byte streams are lists of naturals (each element a byte
value), unsigned 64-bit arithmetic is naturals reduced modulo 2^64, and
Go nil pointers are Option values.
-/

namespace Madmin

/-! ## Inspect response decoding (AdminClient.Inspect, response side)

The Go code wraps resp.Body in a bufio.Reader (bufio.NewReaderSize with
a 4 KiB buffer), reads one discriminator byte, and then branches on it.
We model the reader over the full body byte sequence: the byte sequence
a caller observes is identical to the buffered one.
-/

/-- Model of a bufio.Reader over an in-memory byte sequence: the bytes not
yet delivered, plus the most recently read byte, which is what
bufio.Reader.UnreadByte needs (UnreadByte fails exactly when there is no
such byte recorded, mirroring bufio's contract after a successful
ReadByte). -/
structure BufioReader where
  buf : List Nat
  lastByte : Option Nat
deriving Repr, DecidableEq

/-- Model of bufio.Reader.ReadByte: returns the next byte, or io.EOF on an
exhausted stream. -/
def BufioReader.readByte : BufioReader → Except String (Nat × BufioReader)
  | ⟨[], _⟩ => .error ("EOF")
  | ⟨b :: rest, _⟩ => .ok (b, ⟨rest, some b⟩)

/-- Model of bufio.Reader.UnreadByte: pushes the last read byte back onto
the stream; errors if no byte was read. -/
def BufioReader.unreadByte : BufioReader → Except String BufioReader
  | ⟨_, none⟩ => .error ("bufio: invalid use of UnreadByte")
  | ⟨buf, some b⟩ => .ok ⟨b :: buf, none⟩

/-- Model of io.ReadFull over the buffered reader: reads exactly n bytes,
or fails with io.EOF when no byte is available and io.ErrUnexpectedEOF
when only a proper prefix is. -/
def ioReadFull (r : BufioReader) (n : Nat) : Except String (List Nat × BufioReader) :=
  if n ≤ r.buf.length then
    .ok (r.buf.take n, ⟨r.buf.drop n, if n == 0 then r.lastByte else (r.buf.take n).getLast?⟩)
  else
    .error (if r.buf.length == 0 then ("EOF") else ("unexpected EOF"))

/-- Error outcomes of the response-side part of Inspect.  httpStatus models
the httpRespToErrorResponse error built from a non-200 status (that helper
lives outside this file's source; only the status class matters here),
ioErr carries an I/O error message, and unknownDataVersion is the
errors.New value of the default switch branch. -/
inductive InspectErr where
  | httpStatus (code : Nat)
  | ioErr (msg : String)
  | unknownDataVersion
deriving Repr, DecidableEq

/-- Model of the closeWrapper returned on success: its Reader side is the
remaining byte sequence the caller can read, and its Closer side is the
response body. -/
structure closeWrapper where
  content : List Nat
deriving Repr, DecidableEq

/-- Closing the returned closeWrapper closes the wrapped resp.Body, hence
releases the underlying connection exactly once. -/
def closeWrapper.closeCloses (_ : closeWrapper) : Nat := 1

/-- Result of one Inspect call after the response has been received,
mirroring the Go return triple (key, c, err), plus a bookkeeping flag
recording whether Inspect itself called closeResponse before returning. -/
structure InspectOutcome where
  key : Option (List Nat)
  stream : Option closeWrapper
  err : Option InspectErr
  closedInInspect : Bool
deriving Repr, DecidableEq

/-- Response-side logic of AdminClient.Inspect, translated from the Go
source: check the HTTP status, read the discriminator byte through the
buffered reader, then switch on it (1: consume a 32-byte key; 2: unread
the discriminator; default: fail with the unknown-data-version error).
statusCode and body are what the executeMethod collaborator produced. -/
def inspectReceive (statusCode : Nat) (body : List Nat) : InspectOutcome :=
  if statusCode ≠ 200 then
    ⟨none, none, some (.httpStatus statusCode), true⟩
  else
    match BufioReader.readByte ⟨body, none⟩ with
    | .error msg => ⟨none, none, some (.ioErr msg), true⟩
    | .ok (format, bior) =>
      match format with
      | 1 =>
        match ioReadFull bior 32 with
        | .error msg => ⟨none, none, some (.ioErr msg), true⟩
        | .ok (key, bior2) => ⟨some key, some ⟨bior2.buf⟩, none, false⟩
      | 2 =>
        match bior.unreadByte with
        | .error msg => ⟨none, none, some (.ioErr msg), false⟩
        | .ok bior2 => ⟨none, some ⟨bior2.buf⟩, none, false⟩
      | _ => ⟨none, none, some .unknownDataVersion, true⟩

/-- Number of times the response/connection of one Inspect call is
released over the whole lifecycle: once inside Inspect when it called
closeResponse, plus once when the caller closes a returned stream (the
ownership contract obliges the caller to close it exactly once). -/
def inspectLifecycleCloses (statusCode : Nat) (body : List Nat) : Nat :=
  let o := inspectReceive statusCode body
  (if o.closedInInspect then 1 else 0) +
  (match o.stream with
   | some w => w.closeCloses
   | none => 0)

/-! ## Inspect request construction (AdminClient.Inspect, request side)

The Go code builds a url.Values form with the volume and file parameters,
adds the base64-encoded public key when one was supplied, and then either
sends the form as query values of a GET or as the form-encoded body of a
POST with the x-www-form-urlencoded content type.
-/

/-- Alphabet of base64.StdEncoding. -/
def base64Alphabet : List Char :=
  ("ABCDEFGHIJKLMNOPQRSTUVWXYZabcdefghijklmnopqrstuvwxyz0123456789+/").toList

/-- Character of base64.StdEncoding for one 6-bit group. -/
def base64Digit (n : Nat) : Char := base64Alphabet.getD n '='

/-- Model of base64.StdEncoding.EncodeToString over a byte sequence,
including the '=' padding of the final partial group. -/
def base64StdEncode : List Nat → String
  | [] => ""
  | [a] =>
    ⟨[base64Digit (a / 4), base64Digit (a % 4 * 16), '=', '=']⟩
  | [a, b] =>
    ⟨[base64Digit (a / 4), base64Digit (a % 4 * 16 + b / 16), base64Digit (b % 16 * 4), '=']⟩
  | a :: b :: c :: rest =>
    (⟨[base64Digit (a / 4), base64Digit (a % 4 * 16 + b / 16),
       base64Digit (b % 16 * 4 + c / 64), base64Digit (c % 64)]⟩ : String)
      ++ base64StdEncode rest

/-- Upper-case hexadecimal digit, as used by net/url percent-escaping. -/
def hexDigitUpper (n : Nat) : Char := ("0123456789ABCDEF").toList.getD n '0'

/-- Bytes net/url.QueryEscape leaves unescaped: ASCII letters, digits, and
the unreserved marks hyphen, underscore, dot, tilde. -/
def queryUnreserved (b : Nat) : Bool :=
  (65 ≤ b && b ≤ 90) || (97 ≤ b && b ≤ 122) || (48 ≤ b && b ≤ 57) ||
  b == 45 || b == 95 || b == 46 || b == 126

/-- Escape of one byte under net/url.QueryEscape: unreserved bytes stay,
space becomes '+', everything else becomes a percent escape. -/
def queryEscapeByte (b : Nat) : List Char :=
  if queryUnreserved b then [Char.ofNat b]
  else if b == 32 then ['+']
  else ['%', hexDigitUpper (b / 16), hexDigitUpper (b % 16)]

/-- UTF-8 bytes of a string, as naturals. -/
def strBytes (s : String) : List Nat := s.toUTF8.toList.map (fun b => b.toNat)

/-- Model of net/url.QueryEscape, applied byte-wise to the UTF-8 form. -/
def queryEscape (s : String) : String :=
  ⟨(strBytes s).foldr (fun b acc => queryEscapeByte b ++ acc) []⟩

/-- Model of url.Values, a map from parameter name to value; Values.Set
replaces any existing entry for the key.  (Only single-valued entries
occur in this code path.) -/
def valuesSet (vs : List (String × String)) (k v : String) : List (String × String) :=
  vs.filter (fun p => p.1 ≠ k) ++ [(k, v)]

/-- Insertion step of the key sort performed by url.Values.Encode. -/
def insertByKey (p : String × String) : List (String × String) → List (String × String)
  | [] => [p]
  | q :: rest => if q.1 < p.1 then q :: insertByKey p rest else p :: q :: rest

/-- Key sort performed by url.Values.Encode (sort.Strings over the keys). -/
def sortByKey (vs : List (String × String)) : List (String × String) :=
  vs.foldr insertByKey []

/-- Model of url.Values.Encode: keys sorted, each pair query-escaped and
joined as key=value with ampersand separators. -/
def valuesEncode (vs : List (String × String)) : String :=
  String.intercalate ("&")
    ((sortByKey vs).map (fun p => queryEscape p.1 ++ "=" ++ queryEscape p.2))

/-- InspectOptions provides options to Inspect; PublicKey none models a
nil Go slice. -/
structure InspectOptions where
  Volume : String
  File : String
  PublicKey : Option (List Nat)
deriving Repr, DecidableEq

/-- The fields of requestData that Inspect populates.  Headers and query
values model http.Header and url.Values; content is the request body. -/
structure RequestData where
  relPath : String
  customHeaders : List (String × String)
  queryValues : List (String × String)
  content : Option String
deriving Repr, DecidableEq

/-- Request-side logic of AdminClient.Inspect, translated from the Go
source: build the form (volume, file, optional base64 public-key), then
choose POST with a form-encoded body and the urlencoded content type when
a public key is present, else GET with the form as query values.  Returns
the HTTP method together with the populated requestData.  The relPath
constant adminAPIPrefix is defined outside this file's source; its value
is the v3 admin API prefix. -/
def inspectRequest (d : InspectOptions) : String × RequestData :=
  let form0 := valuesSet (valuesSet [] ("volume") d.Volume) ("file") d.File
  let form :=
    match d.PublicKey with
    | some pk => valuesSet form0 ("public-key") (base64StdEncode pk)
    | none => form0
  match d.PublicKey with
  | some _ =>
    ("POST",
     { relPath := "/v3" ++ "/inspect-data"
       customHeaders := [("Content-Type", "application/x-www-form-urlencoded")]
       queryValues := []
       content := some (valuesEncode form) })
  | none =>
    ("GET",
     { relPath := "/v3" ++ "/inspect-data"
       customHeaders := []
       queryValues := form
       content := none })

/-! ## Health report data model

Embedding conventions for this part: Go uint64 fields are naturals whose
arithmetic is reduced modulo 2^64 where the code computes; Go float64
fields are carried as rationals (no claim computes with them); time.Time
is an integer instant; Go pointers are Option, a nil pointer being none;
Go maps are association lists.
-/

/-- Modulus of Go's unsigned 64-bit integer arithmetic. -/
def U64MOD : Nat := 2 ^ 64

/-- External per-node stat payload (the gopsutil cpu/disk/host/mem/process
stat types).  Per the spec these are produced by node-side agents and
merely carried, unmodified, inside the schema, so they are modelled as
carried opaque content. -/
structure CarriedStat where
  content : String
deriving Repr, DecidableEq

/-- Latency contains write operation latency in seconds of a disk drive. -/
structure Latency where
  Avg : Rat
  Max : Rat
  Min : Rat
  Percentile50 : Rat
  Percentile90 : Rat
  Percentile99 : Rat
deriving Repr, DecidableEq

/-- Throughput contains write performance in bytes per second of a disk
drive. -/
structure Throughput where
  Avg : Nat
  Max : Nat
  Min : Nat
  Percentile50 : Nat
  Percentile90 : Nat
  Percentile99 : Nat
deriving Repr, DecidableEq

/-- DrivePerfInfo contains disk drive performance information. -/
structure DrivePerfInfo where
  Error : String
  Path : String
  Latency : Latency
  Throughput : Throughput
deriving Repr, DecidableEq

/-- Modelled from the spec: NodeCommon is declared in another file of this
repository (health.go).  Per the spec every per-node leaf record follows
the same shape convention: an address/node-identifier field and an
optional error string. -/
structure NodeCommon where
  Addr : String
  Error : String
deriving Repr, DecidableEq

/-- DrivePerfInfos contains all disk drive performance information of a
node; the embedded Go NodeCommon is the nodeCommon field. -/
structure DrivePerfInfos where
  nodeCommon : NodeCommon
  SerialPerf : List DrivePerfInfo
  ParallelPerf : List DrivePerfInfo
deriving Repr, DecidableEq

/-- PeerNetPerfInfo contains network performance information of a node. -/
structure PeerNetPerfInfo where
  nodeCommon : NodeCommon
  Latency : Latency
  Throughput : Throughput
deriving Repr, DecidableEq

/-- NetPerfInfo contains network performance information of a node to
other nodes. -/
structure NetPerfInfo where
  nodeCommon : NodeCommon
  RemotePeers : List PeerNetPerfInfo
deriving Repr, DecidableEq

/-- PerfInfo includes drive and net perf info for the entire MinIO
cluster. -/
structure PerfInfo where
  Drives : List DrivePerfInfos
  Net : List NetPerfInfo
  NetParallel : NetPerfInfo
deriving Repr, DecidableEq

/-- Modelled from the spec: SysInfo is declared in another file of this
repository (health.go).  Per the spec it aggregates per-node system facts
(CPU, memory, OS, processes, disks/SMART); each per-node record carries an
address and an optional error, which is the shape modelled here. -/
structure SysInfo where
  nodes : List NodeCommon
deriving Repr, DecidableEq

/-- Modelled from the spec: MinioHealthInfo is declared in another file of
this repository (health.go).  Per the spec it is a nested record that may
carry its own error string independent of the top-level one. -/
structure MinioHealthInfo where
  Error : String
deriving Repr, DecidableEq

/-- HealthInfoV2 - MinIO cluster health info version 2. -/
structure HealthInfoV2 where
  Version : String
  Error : String
  TimeStamp : Int
  Sys : SysInfo
  Perf : PerfInfo
  Minio : MinioHealthInfo
deriving Repr, DecidableEq

/-- External usage record (gopsutil disk.UsageStat): per-mount capacity
counters; counters are uint64, percents float64. -/
structure UsageStat where
  Path : String
  Fstype : String
  Total : Nat
  Free : Nat
  Used : Nat
  UsedPercent : Rat
  InodesTotal : Nat
  InodesUsed : Nat
  InodesFree : Nat
  InodesUsedPercent : Rat
deriving Repr, DecidableEq

/-- SmartScsiInfo contains SCSI drive info. -/
structure SmartScsiInfo where
  CapacityBytes : Int
  ModeSenseBuf : String
  RespLen : Int
  BdLen : Int
  Offset : Int
  RPM : Int
deriving Repr, DecidableEq

/-- SmartNvmeInfo contains NVMe drive info; the big.Int pointer fields are
optional integers. -/
structure SmartNvmeInfo where
  SerialNum : String
  VendorID : String
  FirmwareVersion : String
  ModelNum : String
  SpareAvailable : String
  SpareThreshold : String
  Temperature : String
  CriticalWarning : String
  MaxDataTransferPages : Int
  ControllerBusyTime : Option Int
  PowerOnHours : Option Int
  PowerCycles : Option Int
  UnsafeShutdowns : Option Int
  MediaAndDataIntegrityErrors : Option Int
  DataUnitsReadBytes : Option Int
  DataUnitsWrittenBytes : Option Int
  HostReadCommands : Option Int
  HostWriteCommands : Option Int
deriving Repr, DecidableEq

/-- SmartAtaInfo contains ATA drive info. -/
structure SmartAtaInfo where
  LUWWNDeviceID : String
  SerialNum : String
  ModelNum : String
  FirmwareRevision : String
  RotationRate : String
  ATAMajorVersion : String
  ATAMinorVersion : String
  SmartSupportAvailable : Bool
  SmartSupportEnabled : Bool
  ErrorLog : String
  Transport : String
deriving Repr, DecidableEq

/-- SmartInfo contains S.M.A.R.T data about the drive. -/
structure SmartInfo where
  Device : String
  Scsi : Option SmartScsiInfo
  Nvme : Option SmartNvmeInfo
  Ata : Option SmartAtaInfo
deriving Repr, DecidableEq

/-- PartitionStat includes data from both gopsutil PartitionStat and SMART
data. -/
structure PartitionStat where
  Device : String
  Mountpoint : String
  Fstype : String
  Opts : String
  SmartInfo : SmartInfo
deriving Repr, DecidableEq

/-- ServerDiskHwInfo includes usage counters, disk counters and
partitions; the Go Usage field is a slice of pointers, so an entry may be
nil (none). -/
structure ServerDiskHwInfo where
  Addr : String
  Usage : List (Option UsageStat)
  Partitions : List PartitionStat
  Counters : List (String × CarriedStat)
  Error : String
deriving Repr, DecidableEq

/-- One iteration of the Go capacity loops (capacity += u.X): wrapping
uint64 addition of the projected counter; dereferencing a nil entry
pointer panics in Go, which is modelled by the none absorbing state. -/
def usageFoldStep (f : UsageStat → Nat) (capacity : Option Nat) (u : Option UsageStat) :
    Option Nat :=
  match capacity, u with
  | some c, some us => some ((c + f us) % U64MOD)
  | _, _ => none

/-- GetTotalCapacity gets the total capacity a server holds, accumulating
the per-entry Total counters into a Go uint64. -/
def ServerDiskHwInfo.GetTotalCapacity (s : ServerDiskHwInfo) : Option Nat :=
  s.Usage.foldl (usageFoldStep (fun u => u.Total)) (some 0)

/-- GetTotalFreeCapacity gets the total capacity that is free, accumulating
the per-entry Free counters into a Go uint64. -/
def ServerDiskHwInfo.GetTotalFreeCapacity (s : ServerDiskHwInfo) : Option Nat :=
  s.Usage.foldl (usageFoldStep (fun u => u.Free)) (some 0)

/-- GetTotalUsedCapacity gets the total capacity used, accumulating the
per-entry Used counters into a Go uint64. -/
def ServerDiskHwInfo.GetTotalUsedCapacity (s : ServerDiskHwInfo) : Option Nat :=
  s.Usage.foldl (usageFoldStep (fun u => u.Used)) (some 0)

/-- ServerCPUInfo includes cpu and timer stats of each node. -/
structure ServerCPUInfo where
  Addr : String
  CPUStat : List CarriedStat
  TimeStat : List CarriedStat
  Error : String
deriving Repr, DecidableEq

/-- ServerOsInfo includes host os information. -/
structure ServerOsInfo where
  Addr : String
  Info : Option CarriedStat
  Sensors : List CarriedStat
  Users : List CarriedStat
  Error : String
deriving Repr, DecidableEq

/-- ServerMemInfo includes host virtual and swap mem information. -/
structure ServerMemInfo where
  Addr : String
  SwapMem : Option CarriedStat
  VirtualMem : Option CarriedStat
  Error : String
deriving Repr, DecidableEq

/-- SysProcess includes process-level information about a single
process. -/
structure SysProcess where
  Pid : Int
  Background : Bool
  CPUPercent : Rat
  Children : List Int
  CmdLine : String
  ConnectionCount : Int
  CreateTime : Int
  Cwd : String
  Exe : String
  Gids : List Int
  IOCounters : Option CarriedStat
  IsRunning : Bool
  MemInfo : Option CarriedStat
  MemMaps : Option (List CarriedStat)
  MemPercent : Rat
  Name : String
  Nice : Int
  NumCtxSwitches : Option CarriedStat
  NumFds : Int
  NumThreads : Int
  PageFaults : Option CarriedStat
  Parent : Int
  Ppid : Int
  Status : String
  Tgid : Int
  Times : Option CarriedStat
  Uids : List Int
  Username : String
deriving Repr, DecidableEq

/-- GetOwner returns the owner of the process. -/
def SysProcess.GetOwner (sp : SysProcess) : String := sp.Username

/-- ServerProcInfo includes host process-level information. -/
structure ServerProcInfo where
  Addr : String
  Processes : List SysProcess
  Error : String
deriving Repr, DecidableEq

/-- SysHealthInfo includes hardware and system information of the
cluster. -/
structure SysHealthInfo where
  CPUInfo : List ServerCPUInfo
  DiskHwInfo : List ServerDiskHwInfo
  OsInfo : List ServerOsInfo
  MemInfo : List ServerMemInfo
  ProcInfo : List ServerProcInfo
  Error : String
deriving Repr, DecidableEq

/-- MinioHealthInfoV0 includes MinIO configuration information; Info is
the InfoMessage declared in another file of this repository, carried
opaquely, and Config is the untyped configuration value (nil allowed). -/
structure MinioHealthInfoV0 where
  Info : CarriedStat
  Config : Option CarriedStat
  Error : String
deriving Repr, DecidableEq

/-- DiskLatency holds latency information for write operations to the
drive. -/
structure DiskLatency where
  Avg : Rat
  Percentile50 : Rat
  Percentile90 : Rat
  Percentile99 : Rat
  Min : Rat
  Max : Rat
deriving Repr, DecidableEq

/-- DiskThroughput holds throughput information for write operations to
the drive. -/
structure DiskThroughput where
  Avg : Rat
  Percentile50 : Rat
  Percentile90 : Rat
  Percentile99 : Rat
  Min : Rat
  Max : Rat
deriving Repr, DecidableEq

/-- DrivePerfInfoV0 - stats about a single drive in a MinIO node. -/
structure DrivePerfInfoV0 where
  Path : String
  Latency : DiskLatency
  Throughput : DiskThroughput
  Error : String
deriving Repr, DecidableEq

/-- ServerDrivesInfo - drive info about all drives in a single MinIO
node. -/
structure ServerDrivesInfo where
  Addr : String
  Serial : List DrivePerfInfoV0
  Parallel : List DrivePerfInfoV0
  Error : String
deriving Repr, DecidableEq

/-- NetLatency holds latency information for operations to the drive. -/
structure NetLatency where
  Avg : Rat
  Percentile50 : Rat
  Percentile90 : Rat
  Percentile99 : Rat
  Min : Rat
  Max : Rat
deriving Repr, DecidableEq

/-- NetThroughput holds throughput information for operations to the
drive. -/
structure NetThroughput where
  Avg : Rat
  Percentile50 : Rat
  Percentile90 : Rat
  Percentile99 : Rat
  Min : Rat
  Max : Rat
deriving Repr, DecidableEq

/-- NetPerfInfoV0 - one-to-one network connectivity stats between two
MinIO nodes. -/
structure NetPerfInfoV0 where
  Addr : String
  Latency : NetLatency
  Throughput : NetThroughput
  Error : String
deriving Repr, DecidableEq

/-- ServerNetHealthInfo - network health info about a single MinIO
node. -/
structure ServerNetHealthInfo where
  Addr : String
  Net : List NetPerfInfoV0
  Error : String
deriving Repr, DecidableEq

/-- PerfInfoV0 includes drive and net perf info for the entire MinIO
cluster, version 0. -/
structure PerfInfoV0 where
  DriveInfo : List ServerDrivesInfo
  Net : List ServerNetHealthInfo
  NetParallel : ServerNetHealthInfo
  Error : String
deriving Repr, DecidableEq

/-- HealthInfoV0 - MinIO cluster health info version 0. -/
structure HealthInfoV0 where
  TimeStamp : Int
  Error : String
  Perf : PerfInfoV0
  Minio : MinioHealthInfoV0
  Sys : SysHealthInfo
deriving Repr, DecidableEq

/-! ## Health report accessors and serialization -/

/-- GetError returns the error from the cluster health info v2. -/
def HealthInfoV2.GetError (info : HealthInfoV2) : String := info.Error

/-- GetStatus returns the status of the cluster health info v2. -/
def HealthInfoV2.GetStatus (info : HealthInfoV2) : String :=
  if info.Error ≠ "" then "error" else "success"

/-- GetTimestamp returns the timestamp from the cluster health info v2. -/
def HealthInfoV2.GetTimestamp (info : HealthInfoV2) : Int := info.TimeStamp

/-- Modelled from the spec: json.Marshal over a v2 report lives in the
external encoding/json collaborator, which the spec scopes out and defines
to never fail for valid in-memory reports and to be deterministic given
the same value; it is modelled as a total rendering of the value. -/
def jsonMarshalV2 (info : HealthInfoV2) : Except String String :=
  .ok (reprStr info)

/-- Modelled from the spec: json.MarshalIndent over a v2 report, the
indented human-readable form; like jsonMarshalV2 it is total and
deterministic. -/
def jsonMarshalIndentV2 (info : HealthInfoV2) : Except String String :=
  .ok ((repr info).pretty 40)

/-- Modelled from the spec: json.Marshal over a v0 report; total and
deterministic. -/
def jsonMarshalV0 (info : HealthInfoV0) : Except String String :=
  .ok (reprStr info)

/-- Modelled from the spec: json.MarshalIndent over a v0 report; total and
deterministic. -/
def jsonMarshalIndentV0 (info : HealthInfoV0) : Except String String :=
  .ok ((repr info).pretty 40)

/-- JSON returns the v2 structure as an indented JSON string; panic on a
marshal error is modelled by none. -/
def HealthInfoV2.JSON (info : HealthInfoV2) : Option String :=
  match jsonMarshalIndentV2 info with
  | .ok data => some data
  | .error _ => none

/-- String serializer of a v2 report: marshal, panic on a marshal error
(the panic is modelled by none), else the compact string. -/
def HealthInfoV2.String (info : HealthInfoV2) : Option String :=
  match jsonMarshalV2 info with
  | .ok data => some data
  | .error _ => none

/-- JSON returns the v0 structure as an indented JSON string; panic on a
marshal error is modelled by none. -/
def HealthInfoV0.JSON (info : HealthInfoV0) : Option String :=
  match jsonMarshalIndentV0 info with
  | .ok data => some data
  | .error _ => none

/-- String serializer of a v0 report; panic on a marshal error is modelled
by none. -/
def HealthInfoV0.String (info : HealthInfoV0) : Option String :=
  match jsonMarshalV0 info with
  | .ok data => some data
  | .error _ => none

/-! ## Claims about the inspect response protocol -/

/-- C1: for every successful Inspect call whose response body's first byte
is 1, the client consumes exactly the next 32 bytes of the body as the
returned key (the key is present and exactly 32 bytes long), the returned
stream begins at the first byte after those 32, and over all successful
calls the key is present iff the discriminator byte was 1. -/
theorem C1_inspect_format1 (rest : List Nat) (h : 32 ≤ rest.length) :
    ((inspectReceive 200 (1 :: rest)).key = some (rest.take 32) ∧
     (rest.take 32).length = 32 ∧
     (inspectReceive 200 (1 :: rest)).stream = some ⟨rest.drop 32⟩ ∧
     (inspectReceive 200 (1 :: rest)).err = none) ∧
    (∀ body : List Nat, (inspectReceive 200 body).err = none →
      ((inspectReceive 200 body).key.isSome ↔ body.head? = some 1)) := by
  constructor
  · refine ⟨?_, ?_, ?_, ?_⟩ <;>
      simp [inspectReceive, BufioReader.readByte, ioReadFull, h]
  · intro body herr
    match body with
    | [] => simp [inspectReceive, BufioReader.readByte] at herr
    | 0 :: r => simp [inspectReceive, BufioReader.readByte] at herr
    | 1 :: r =>
      by_cases h32 : 32 ≤ r.length
      · simp [inspectReceive, BufioReader.readByte, ioReadFull, h32]
      · simp [inspectReceive, BufioReader.readByte, ioReadFull, h32] at herr
    | 2 :: r =>
      simp [inspectReceive, BufioReader.readByte, BufioReader.unreadByte]
    | (n + 3) :: r => simp [inspectReceive, BufioReader.readByte] at herr

/-- C1 witness: a concrete body with discriminator 1 and 33 trailing bytes. -/
theorem C1_inspect_format1_witness :
    ((inspectReceive 200 (1 :: (List.replicate 32 7 ++ [9]))).key
        = some ((List.replicate 32 7 ++ [9]).take 32) ∧
     ((List.replicate 32 7 ++ [9]).take 32).length = 32 ∧
     (inspectReceive 200 (1 :: (List.replicate 32 7 ++ [9]))).stream
        = some ⟨(List.replicate 32 7 ++ [9]).drop 32⟩ ∧
     (inspectReceive 200 (1 :: (List.replicate 32 7 ++ [9]))).err = none) ∧
    ((inspectReceive 200 [2, 5]).key.isSome ↔ [2, 5].head? = some 1) :=
  ⟨(C1_inspect_format1 (List.replicate 32 7 ++ [9]) (by decide)).1,
   (C1_inspect_format1 (List.replicate 32 7 ++ [9]) (by decide)).2 [2, 5] (by decide)⟩

/-- C2: for every successful Inspect call whose response body's first byte
is 2, the client returns no key and a stream whose first byte is again 2:
the discriminator is pushed back, so the caller sees the original byte
sequence from byte zero. -/
theorem C2_inspect_format2 (rest : List Nat) :
    (inspectReceive 200 (2 :: rest)).key = none ∧
    (inspectReceive 200 (2 :: rest)).stream = some ⟨2 :: rest⟩ ∧
    (inspectReceive 200 (2 :: rest)).err = none ∧
    (closeWrapper.content ⟨2 :: rest⟩).head? = some 2 := by
  simp [inspectReceive, BufioReader.readByte, BufioReader.unreadByte]

/-- C3: for every Inspect call whose response body's first byte is neither
1 nor 2, the call fails with the unknown-data-version error, the
connection is released inside Inspect, and neither a stream nor a key is
returned. -/
theorem C3_inspect_unknown_format (b : Nat) (rest : List Nat)
    (h1 : b ≠ 1) (h2 : b ≠ 2) :
    inspectReceive 200 (b :: rest) = ⟨none, none, some .unknownDataVersion, true⟩ := by
  match b with
  | 0 => simp [inspectReceive, BufioReader.readByte]
  | 1 => exact absurd rfl h1
  | 2 => exact absurd rfl h2
  | (n + 3) => simp [inspectReceive, BufioReader.readByte]

/-- C3 witness: discriminator byte 3 fails with the unknown-data-version
error and nothing is returned. -/
theorem C3_inspect_unknown_format_witness :
    inspectReceive 200 [3, 7] = ⟨none, none, some .unknownDataVersion, true⟩ :=
  C3_inspect_unknown_format 3 [7] (by decide) (by decide)

/-- C4: over every complete lifecycle of an Inspect call the received
response is released exactly once; every failing call has already released
it inside Inspect and returns neither stream nor key, and every successful
call leaves it open, handing back a stream whose close releases it once. -/
theorem C4_inspect_close_once (statusCode : Nat) (body : List Nat) :
    inspectLifecycleCloses statusCode body = 1 ∧
    (∀ e, (inspectReceive statusCode body).err = some e →
      (inspectReceive statusCode body).closedInInspect = true ∧
      (inspectReceive statusCode body).stream = none ∧
      (inspectReceive statusCode body).key = none) ∧
    ((inspectReceive statusCode body).err = none →
      (inspectReceive statusCode body).closedInInspect = false ∧
      (inspectReceive statusCode body).stream.map closeWrapper.closeCloses = some 1) := by
  by_cases hsc : statusCode = 200
  · subst hsc
    match body with
    | [] =>
      simp [inspectLifecycleCloses, inspectReceive, BufioReader.readByte]
    | 0 :: r =>
      simp [inspectLifecycleCloses, inspectReceive, BufioReader.readByte]
    | 1 :: r =>
      by_cases h32 : 32 ≤ r.length <;>
        simp [inspectLifecycleCloses, inspectReceive, BufioReader.readByte,
          ioReadFull, h32, closeWrapper.closeCloses]
    | 2 :: r =>
      simp [inspectLifecycleCloses, inspectReceive, BufioReader.readByte,
        BufioReader.unreadByte, closeWrapper.closeCloses]
    | (n + 3) :: r =>
      simp [inspectLifecycleCloses, inspectReceive, BufioReader.readByte]
  · simp [inspectLifecycleCloses, inspectReceive, hsc]

/-- C4 witness: a successful call (discriminator 2) and a failing call
(discriminator 5) both release the response exactly once. -/
theorem C4_inspect_close_once_witness :
    (inspectLifecycleCloses 200 [2, 9] = 1 ∧
     (inspectReceive 200 [2, 9]).closedInInspect = false ∧
     (inspectReceive 200 [2, 9]).stream.map closeWrapper.closeCloses = some 1) ∧
    (inspectLifecycleCloses 200 [5, 9] = 1 ∧
     (inspectReceive 200 [5, 9]).closedInInspect = true ∧
     (inspectReceive 200 [5, 9]).stream = none ∧
     (inspectReceive 200 [5, 9]).key = none) :=
  ⟨⟨(C4_inspect_close_once 200 [2, 9]).1,
    (C4_inspect_close_once 200 [2, 9]).2.2 (by decide)⟩,
   ⟨(C4_inspect_close_once 200 [5, 9]).1,
    (C4_inspect_close_once 200 [5, 9]).2.1 .unknownDataVersion (by decide)⟩⟩

/-- C5: an Inspect call without a public key sends a GET whose parameters
(volume, file) travel as query values only, with no body and no custom
headers; a call with a public key sends a POST whose body is the
form-encoding of volume, file and the base64 public key, with the
x-www-form-urlencoded content type and no query values. -/
theorem C5_inspect_request_shape (d : InspectOptions) :
    (d.PublicKey = none →
      (inspectRequest d).1 = "GET" ∧
      (inspectRequest d).2.queryValues = [("volume", d.Volume), ("file", d.File)] ∧
      (inspectRequest d).2.content = none ∧
      (inspectRequest d).2.customHeaders = []) ∧
    (∀ pk, d.PublicKey = some pk →
      (inspectRequest d).1 = "POST" ∧
      (inspectRequest d).2.queryValues = [] ∧
      (inspectRequest d).2.customHeaders
        = [("Content-Type", "application/x-www-form-urlencoded")] ∧
      (inspectRequest d).2.content
        = some (valuesEncode [("volume", d.Volume), ("file", d.File),
            ("public-key", base64StdEncode pk)])) := by
  obtain ⟨v, f, pk⟩ := d
  constructor
  · intro hnone
    cases pk with
    | none => exact ⟨rfl, rfl, rfl, rfl⟩
    | some k => cases hnone
  · intro k hk
    cases pk with
    | none => cases hk
    | some k2 =>
      cases hk
      exact ⟨rfl, rfl, rfl, rfl⟩

/-- C5 witness: a concrete call without and a concrete call with a public
key. -/
theorem C5_inspect_request_shape_witness :
    ((inspectRequest ⟨"v1", "f1", none⟩).1 = "GET" ∧
     (inspectRequest ⟨"v1", "f1", none⟩).2.queryValues
        = [("volume", "v1"), ("file", "f1")] ∧
     (inspectRequest ⟨"v1", "f1", none⟩).2.content = none ∧
     (inspectRequest ⟨"v1", "f1", none⟩).2.customHeaders = []) ∧
    ((inspectRequest ⟨"v1", "f1", some [1, 2, 3]⟩).1 = "POST" ∧
     (inspectRequest ⟨"v1", "f1", some [1, 2, 3]⟩).2.queryValues = [] ∧
     (inspectRequest ⟨"v1", "f1", some [1, 2, 3]⟩).2.customHeaders
        = [("Content-Type", "application/x-www-form-urlencoded")] ∧
     (inspectRequest ⟨"v1", "f1", some [1, 2, 3]⟩).2.content
        = some (valuesEncode [("volume", "v1"), ("file", "f1"),
            ("public-key", base64StdEncode [1, 2, 3])])) :=
  ⟨(C5_inspect_request_shape ⟨"v1", "f1", none⟩).1 rfl,
   (C5_inspect_request_shape ⟨"v1", "f1", some [1, 2, 3]⟩).2 [1, 2, 3] rfl⟩

/-! ## Claims about the health report accessors -/

/-- Helper: over a usage list whose entries are all present, the capacity
fold computes the wrapped sum of the projected counters on top of any
already-reduced accumulator. -/
theorem usageFold_all_present (f : UsageStat → Nat) :
    ∀ (l : List (Option UsageStat)), (∀ u ∈ l, u ≠ none) → ∀ c : Nat,
      l.foldl (usageFoldStep f) (some (c % U64MOD))
        = some ((c + ((l.filterMap id).map f).sum) % U64MOD) := by
  intro l
  induction l with
  | nil => intro _ c; simp
  | cons u l ih =>
    intro h c
    match u with
    | none => exact absurd rfl (h none (List.mem_cons_self none l))
    | some us =>
      have hrest : ∀ v ∈ l, v ≠ none := fun v hv => h v (List.mem_cons_of_mem _ hv)
      have hmod : (c % U64MOD + f us) % U64MOD = (c + f us) % U64MOD :=
        Nat.mod_add_mod c U64MOD (f us)
      calc (some us :: l).foldl (usageFoldStep f) (some (c % U64MOD))
          = l.foldl (usageFoldStep f) (some ((c % U64MOD + f us) % U64MOD)) := rfl
        _ = l.foldl (usageFoldStep f) (some ((c + f us) % U64MOD)) := by rw [hmod]
        _ = some ((c + f us + ((l.filterMap id).map f).sum) % U64MOD) := ih hrest (c + f us)
        _ = some ((c + (((some us :: l).filterMap id).map f).sum) % U64MOD) := by
            simp [List.filterMap_cons, Nat.add_assoc]

/-- C6: over a usage list whose entries are all present, GetTotalCapacity,
GetTotalFreeCapacity and GetTotalUsedCapacity return the sums of the
per-entry Total, Free and Used counters (as uint64 values), and an empty
usage list yields 0 for each. -/
theorem C6_capacity_aggregation (s : ServerDiskHwInfo) (h : ∀ u ∈ s.Usage, u ≠ none) :
    s.GetTotalCapacity
      = some (((s.Usage.filterMap id).map (fun u => u.Total)).sum % U64MOD) ∧
    s.GetTotalFreeCapacity
      = some (((s.Usage.filterMap id).map (fun u => u.Free)).sum % U64MOD) ∧
    s.GetTotalUsedCapacity
      = some (((s.Usage.filterMap id).map (fun u => u.Used)).sum % U64MOD) ∧
    (s.Usage = [] →
      s.GetTotalCapacity = some 0 ∧ s.GetTotalFreeCapacity = some 0 ∧
      s.GetTotalUsedCapacity = some 0) := by
  have hT := usageFold_all_present (fun u => u.Total) s.Usage h 0
  have hF := usageFold_all_present (fun u => u.Free) s.Usage h 0
  have hU := usageFold_all_present (fun u => u.Used) s.Usage h 0
  simp only [Nat.zero_mod, Nat.zero_add] at hT hF hU
  refine ⟨hT, hF, hU, ?_⟩
  intro hem
  refine ⟨?_, ?_, ?_⟩
  · rw [show s.GetTotalCapacity
        = s.Usage.foldl (usageFoldStep (fun u => u.Total)) (some 0) from rfl, hem]
    rfl
  · rw [show s.GetTotalFreeCapacity
        = s.Usage.foldl (usageFoldStep (fun u => u.Free)) (some 0) from rfl, hem]
    rfl
  · rw [show s.GetTotalUsedCapacity
        = s.Usage.foldl (usageFoldStep (fun u => u.Used)) (some 0) from rfl, hem]
    rfl

/-- C6 witness: the spec's example usage list, totals 150, 50 and 100. -/
theorem C6_capacity_aggregation_witness :
    ServerDiskHwInfo.GetTotalCapacity
      ⟨"n1", [some ⟨"p1", "fs", 100, 40, 60, 0, 0, 0, 0, 0⟩,
              some ⟨"p2", "fs", 50, 10, 40, 0, 0, 0, 0, 0⟩], [], [], ""⟩ = some 150 ∧
    ServerDiskHwInfo.GetTotalFreeCapacity
      ⟨"n1", [some ⟨"p1", "fs", 100, 40, 60, 0, 0, 0, 0, 0⟩,
              some ⟨"p2", "fs", 50, 10, 40, 0, 0, 0, 0, 0⟩], [], [], ""⟩ = some 50 ∧
    ServerDiskHwInfo.GetTotalUsedCapacity
      ⟨"n1", [some ⟨"p1", "fs", 100, 40, 60, 0, 0, 0, 0, 0⟩,
              some ⟨"p2", "fs", 50, 10, 40, 0, 0, 0, 0, 0⟩], [], [], ""⟩ = some 100 :=
  have h := C6_capacity_aggregation
    ⟨"n1", [some ⟨"p1", "fs", 100, 40, 60, 0, 0, 0, 0, 0⟩,
            some ⟨"p2", "fs", 50, 10, 40, 0, 0, 0, 0, 0⟩], [], [], ""⟩ (by decide)
  ⟨h.1.trans (by decide), h.2.1.trans (by decide), h.2.2.1.trans (by decide)⟩

/-- C7 counterexample: a usage list containing a nil entry does not make
the getters return normally; the Go loop dereferences the nil pointer and
panics, modelled here by the none result of each getter. -/
theorem C7_nil_usage_counterexample :
    ServerDiskHwInfo.GetTotalCapacity ⟨"node1", [none], [], [], ""⟩ = none ∧
    ServerDiskHwInfo.GetTotalFreeCapacity ⟨"node1", [none], [], [], ""⟩ = none ∧
    ServerDiskHwInfo.GetTotalUsedCapacity ⟨"node1", [none], [], [], ""⟩ = none :=
  ⟨rfl, rfl, rfl⟩

/-- C7 as amended: a nil usage entry makes the getters panic rather than
contribute zero; what holds is that for usage lists whose entries are all
present the getters return normally, and a present entry whose counters
are zero contributes zero (appending it changes no result). -/
theorem C7_zero_usage_contributes_zero (s : ServerDiskHwInfo)
    (h : ∀ u ∈ s.Usage, u ≠ none) (z : UsageStat)
    (hzT : z.Total = 0) (hzF : z.Free = 0) (hzU : z.Used = 0) :
    s.GetTotalCapacity.isSome = true ∧
    s.GetTotalFreeCapacity.isSome = true ∧
    s.GetTotalUsedCapacity.isSome = true ∧
    ServerDiskHwInfo.GetTotalCapacity { s with Usage := s.Usage ++ [some z] }
      = s.GetTotalCapacity ∧
    ServerDiskHwInfo.GetTotalFreeCapacity { s with Usage := s.Usage ++ [some z] }
      = s.GetTotalFreeCapacity ∧
    ServerDiskHwInfo.GetTotalUsedCapacity { s with Usage := s.Usage ++ [some z] }
      = s.GetTotalUsedCapacity := by
  have happ : ∀ u ∈ s.Usage ++ [some z], u ≠ none := by
    intro u hu
    rcases List.mem_append.mp hu with h' | h'
    · exact h u h'
    · simp only [List.mem_singleton] at h'
      subst h'
      simp
  have hsingle : List.filterMap id [some z] = [z] := rfl
  have key : ∀ f : UsageStat → Nat, f z = 0 →
      (s.Usage ++ [some z]).foldl (usageFoldStep f) (some 0)
        = s.Usage.foldl (usageFoldStep f) (some 0) := by
    intro f hf
    have h1 := usageFold_all_present f s.Usage h 0
    have h2 := usageFold_all_present f (s.Usage ++ [some z]) happ 0
    simp only [Nat.zero_mod, Nat.zero_add] at h1 h2
    rw [h1, h2]
    congr 1
    simp [List.filterMap_append, hsingle, hf]
  have hT := usageFold_all_present (fun u => u.Total) s.Usage h 0
  have hF := usageFold_all_present (fun u => u.Free) s.Usage h 0
  have hU := usageFold_all_present (fun u => u.Used) s.Usage h 0
  simp only [Nat.zero_mod, Nat.zero_add] at hT hF hU
  refine ⟨?_, ?_, ?_, ?_, ?_, ?_⟩
  · rw [show s.GetTotalCapacity
        = s.Usage.foldl (usageFoldStep (fun u => u.Total)) (some 0) from rfl, hT]
    rfl
  · rw [show s.GetTotalFreeCapacity
        = s.Usage.foldl (usageFoldStep (fun u => u.Free)) (some 0) from rfl, hF]
    rfl
  · rw [show s.GetTotalUsedCapacity
        = s.Usage.foldl (usageFoldStep (fun u => u.Used)) (some 0) from rfl, hU]
    rfl
  · exact key (fun u => u.Total) hzT
  · exact key (fun u => u.Free) hzF
  · exact key (fun u => u.Used) hzU

/-- C7 amended witness: appending a zeroed usage entry to a one-entry list
changes none of the aggregates, and the getters return normally. -/
theorem C7_zero_usage_contributes_zero_witness :
    (ServerDiskHwInfo.GetTotalCapacity
        ⟨"n1", [some ⟨"p1", "fs", 100, 40, 60, 0, 0, 0, 0, 0⟩], [], [], ""⟩).isSome = true ∧
    (ServerDiskHwInfo.GetTotalFreeCapacity
        ⟨"n1", [some ⟨"p1", "fs", 100, 40, 60, 0, 0, 0, 0, 0⟩], [], [], ""⟩).isSome = true ∧
    (ServerDiskHwInfo.GetTotalUsedCapacity
        ⟨"n1", [some ⟨"p1", "fs", 100, 40, 60, 0, 0, 0, 0, 0⟩], [], [], ""⟩).isSome = true ∧
    ServerDiskHwInfo.GetTotalCapacity
        ⟨"n1", [some ⟨"p1", "fs", 100, 40, 60, 0, 0, 0, 0, 0⟩,
                some ⟨"pz", "fs", 0, 0, 0, 0, 0, 0, 0, 0⟩], [], [], ""⟩
      = ServerDiskHwInfo.GetTotalCapacity
        ⟨"n1", [some ⟨"p1", "fs", 100, 40, 60, 0, 0, 0, 0, 0⟩], [], [], ""⟩ ∧
    ServerDiskHwInfo.GetTotalFreeCapacity
        ⟨"n1", [some ⟨"p1", "fs", 100, 40, 60, 0, 0, 0, 0, 0⟩,
                some ⟨"pz", "fs", 0, 0, 0, 0, 0, 0, 0, 0⟩], [], [], ""⟩
      = ServerDiskHwInfo.GetTotalFreeCapacity
        ⟨"n1", [some ⟨"p1", "fs", 100, 40, 60, 0, 0, 0, 0, 0⟩], [], [], ""⟩ ∧
    ServerDiskHwInfo.GetTotalUsedCapacity
        ⟨"n1", [some ⟨"p1", "fs", 100, 40, 60, 0, 0, 0, 0, 0⟩,
                some ⟨"pz", "fs", 0, 0, 0, 0, 0, 0, 0, 0⟩], [], [], ""⟩
      = ServerDiskHwInfo.GetTotalUsedCapacity
        ⟨"n1", [some ⟨"p1", "fs", 100, 40, 60, 0, 0, 0, 0, 0⟩], [], [], ""⟩ :=
  C7_zero_usage_contributes_zero
    ⟨"n1", [some ⟨"p1", "fs", 100, 40, 60, 0, 0, 0, 0, 0⟩], [], [], ""⟩
    (by decide) ⟨"pz", "fs", 0, 0, 0, 0, 0, 0, 0, 0⟩ rfl rfl rfl

/-- C8: GetStatus of a v2 report is error exactly when the Error field is
non-empty and success when it is empty; GetError and GetTimestamp return
the Error and TimeStamp fields unchanged. -/
theorem C8_status_accessors (info : HealthInfoV2) :
    (info.Error ≠ "" → info.GetStatus = "error") ∧
    (info.Error = "" → info.GetStatus = "success") ∧
    info.GetError = info.Error ∧
    info.GetTimestamp = info.TimeStamp := by
  refine ⟨?_, ?_, rfl, rfl⟩
  · intro h; simp [HealthInfoV2.GetStatus, h]
  · intro h; simp [HealthInfoV2.GetStatus, h]

/-- C8 witness: a report with a non-empty error and one with an empty
error. -/
theorem C8_status_accessors_witness :
    HealthInfoV2.GetStatus
      ⟨"v1", "disk offline", 5, ⟨[]⟩, ⟨[], [], ⟨⟨"", ""⟩, []⟩⟩, ⟨""⟩⟩ = "error" ∧
    HealthInfoV2.GetStatus
      ⟨"v1", "", 5, ⟨[]⟩, ⟨[], [], ⟨⟨"", ""⟩, []⟩⟩, ⟨""⟩⟩ = "success" :=
  ⟨(C8_status_accessors ⟨"v1", "disk offline", 5, ⟨[]⟩, ⟨[], [], ⟨⟨"", ""⟩, []⟩⟩, ⟨""⟩⟩).1
      (by decide),
   (C8_status_accessors ⟨"v1", "", 5, ⟨[]⟩, ⟨[], [], ⟨⟨"", ""⟩, []⟩⟩, ⟨""⟩⟩).2.1 rfl⟩

/-- C9: for every in-memory report value, v2 or v0, the compact and the
indented serializers return a string (the internal panic branch is never
taken), and both are deterministic: equal input values give equal output
strings. -/
theorem C9_serializers_total_deterministic :
    (∀ info : HealthInfoV2,
      (HealthInfoV2.String info).isSome = true ∧ (HealthInfoV2.JSON info).isSome = true) ∧
    (∀ info : HealthInfoV0,
      (HealthInfoV0.String info).isSome = true ∧ (HealthInfoV0.JSON info).isSome = true) ∧
    (∀ a b : HealthInfoV2, a = b →
      HealthInfoV2.String a = HealthInfoV2.String b ∧
      HealthInfoV2.JSON a = HealthInfoV2.JSON b) ∧
    (∀ a b : HealthInfoV0, a = b →
      HealthInfoV0.String a = HealthInfoV0.String b ∧
      HealthInfoV0.JSON a = HealthInfoV0.JSON b) :=
  ⟨fun _ => ⟨rfl, rfl⟩,
   fun _ => ⟨rfl, rfl⟩,
   fun _ _ hab => hab ▸ ⟨rfl, rfl⟩,
   fun _ _ hab => hab ▸ ⟨rfl, rfl⟩⟩

/-- C9 witness: concrete v2 and v0 reports serialize to a string, and the
determinism clauses instantiate at those reports. -/
theorem C9_serializers_witness :
    (HealthInfoV2.String
        ⟨"v1", "", 5, ⟨[]⟩, ⟨[], [], ⟨⟨"", ""⟩, []⟩⟩, ⟨""⟩⟩).isSome = true ∧
    (HealthInfoV0.JSON
        ⟨0, "", ⟨[], [], ⟨"", [], ""⟩, ""⟩, ⟨⟨""⟩, none, ""⟩,
         ⟨[], [], [], [], [], ""⟩⟩).isSome = true ∧
    HealthInfoV2.JSON ⟨"v1", "", 5, ⟨[]⟩, ⟨[], [], ⟨⟨"", ""⟩, []⟩⟩, ⟨""⟩⟩
      = HealthInfoV2.JSON ⟨"v1", "", 5, ⟨[]⟩, ⟨[], [], ⟨⟨"", ""⟩, []⟩⟩, ⟨""⟩⟩ :=
  ⟨(C9_serializers_total_deterministic.1
      ⟨"v1", "", 5, ⟨[]⟩, ⟨[], [], ⟨⟨"", ""⟩, []⟩⟩, ⟨""⟩⟩).1,
   (C9_serializers_total_deterministic.2.1
      ⟨0, "", ⟨[], [], ⟨"", [], ""⟩, ""⟩, ⟨⟨""⟩, none, ""⟩, ⟨[], [], [], [], [], ""⟩⟩).2,
   (C9_serializers_total_deterministic.2.2.1
      ⟨"v1", "", 5, ⟨[]⟩, ⟨[], [], ⟨⟨"", ""⟩, []⟩⟩, ⟨""⟩⟩
      ⟨"v1", "", 5, ⟨[]⟩, ⟨[], [], ⟨⟨"", ""⟩, []⟩⟩, ⟨""⟩⟩ rfl).2⟩

/-- C10: the three capacity getters accumulate with wrapping unsigned
64-bit addition: whenever the per-entry counters of an all-present usage
list sum beyond 2^64 - 1, the returned aggregate is the sum modulo 2^64,
which is a value (not an error) strictly different from the mathematical
sum (not saturated). -/
theorem C10_wrapping_accumulation (s : ServerDiskHwInfo)
    (h : ∀ u ∈ s.Usage, u ≠ none) :
    (U64MOD ≤ ((s.Usage.filterMap id).map (fun u => u.Total)).sum →
      s.GetTotalCapacity
        = some (((s.Usage.filterMap id).map (fun u => u.Total)).sum % U64MOD) ∧
      ((s.Usage.filterMap id).map (fun u => u.Total)).sum % U64MOD
        ≠ ((s.Usage.filterMap id).map (fun u => u.Total)).sum) ∧
    (U64MOD ≤ ((s.Usage.filterMap id).map (fun u => u.Free)).sum →
      s.GetTotalFreeCapacity
        = some (((s.Usage.filterMap id).map (fun u => u.Free)).sum % U64MOD) ∧
      ((s.Usage.filterMap id).map (fun u => u.Free)).sum % U64MOD
        ≠ ((s.Usage.filterMap id).map (fun u => u.Free)).sum) ∧
    (U64MOD ≤ ((s.Usage.filterMap id).map (fun u => u.Used)).sum →
      s.GetTotalUsedCapacity
        = some (((s.Usage.filterMap id).map (fun u => u.Used)).sum % U64MOD) ∧
      ((s.Usage.filterMap id).map (fun u => u.Used)).sum % U64MOD
        ≠ ((s.Usage.filterMap id).map (fun u => u.Used)).sum) := by
  have hMpos : 0 < U64MOD := by norm_num [U64MOD]
  have hT := usageFold_all_present (fun u => u.Total) s.Usage h 0
  have hF := usageFold_all_present (fun u => u.Free) s.Usage h 0
  have hU := usageFold_all_present (fun u => u.Used) s.Usage h 0
  simp only [Nat.zero_mod, Nat.zero_add] at hT hF hU
  refine ⟨fun hge => ⟨hT, ?_⟩, fun hge => ⟨hF, ?_⟩, fun hge => ⟨hU, ?_⟩⟩
  · intro heq
    have hlt := Nat.mod_lt ((s.Usage.filterMap id).map (fun u => u.Total)).sum hMpos
    omega
  · intro heq
    have hlt := Nat.mod_lt ((s.Usage.filterMap id).map (fun u => u.Free)).sum hMpos
    omega
  · intro heq
    have hlt := Nat.mod_lt ((s.Usage.filterMap id).map (fun u => u.Used)).sum hMpos
    omega

/-- C10 witness: two entries of 2^63 and 2^63 + 5 overflow each counter;
the aggregates are the sums modulo 2^64. -/
theorem C10_wrapping_accumulation_witness :
    ServerDiskHwInfo.GetTotalCapacity
        ⟨"n1", [some ⟨"p1", "fs", 2 ^ 63, 2 ^ 63, 2 ^ 63, 0, 0, 0, 0, 0⟩,
                some ⟨"p2", "fs", 2 ^ 63 + 5, 2 ^ 63 + 5, 2 ^ 63 + 5, 0, 0, 0, 0, 0⟩],
         [], [], ""⟩ = some 5 ∧
    ServerDiskHwInfo.GetTotalFreeCapacity
        ⟨"n1", [some ⟨"p1", "fs", 2 ^ 63, 2 ^ 63, 2 ^ 63, 0, 0, 0, 0, 0⟩,
                some ⟨"p2", "fs", 2 ^ 63 + 5, 2 ^ 63 + 5, 2 ^ 63 + 5, 0, 0, 0, 0, 0⟩],
         [], [], ""⟩ = some 5 ∧
    ServerDiskHwInfo.GetTotalUsedCapacity
        ⟨"n1", [some ⟨"p1", "fs", 2 ^ 63, 2 ^ 63, 2 ^ 63, 0, 0, 0, 0, 0⟩,
                some ⟨"p2", "fs", 2 ^ 63 + 5, 2 ^ 63 + 5, 2 ^ 63 + 5, 0, 0, 0, 0, 0⟩],
         [], [], ""⟩ = some 5 :=
  have h := C10_wrapping_accumulation
    ⟨"n1", [some ⟨"p1", "fs", 2 ^ 63, 2 ^ 63, 2 ^ 63, 0, 0, 0, 0, 0⟩,
            some ⟨"p2", "fs", 2 ^ 63 + 5, 2 ^ 63 + 5, 2 ^ 63 + 5, 0, 0, 0, 0, 0⟩],
     [], [], ""⟩ (by decide)
  ⟨((h.1 (by decide)).1).trans (by decide),
   ((h.2.1 (by decide)).1).trans (by decide),
   ((h.2.2 (by decide)).1).trans (by decide)⟩

end Madmin
